import Mathlib

/-!
Verification of the PhilIRI GST forms system (src/philiri_forms_sys/app.py).

The development shallowly embeds the core logic of the application:
the placement engine (`compute_total`, `starting_point_for`), the roster
ordering (`_gender_bucket`, `_sort_rows`), the structural-document model
(tables of cells of paragraphs of runs) together with the table predicates
(`_looks_like_meta_table`, `_looks_like_results_table`), the locator loop
and the template populator (`_fill_template_tables`), and the roster
construction of the GST views/exports (`gst_en`, `export_gst_en_docx`).

Python strings are modelled by Lean strings (lists of characters); the
Python `str.strip`, `str.upper`, `str.lower` and `str.startswith` methods
are modelled character-wise below.  Machine integers do not occur: Python
integers are unbounded, and are modelled by `Int` (with `Option Int` where
a value may be `None`).
-/

namespace PhilIRI

/-! ## String primitives (model of the Python `str` methods used) -/

/-- Characters stripped by Python `str.strip()` (ASCII whitespace). -/
def isPySpace (c : Char) : Bool :=
  c = ' ' || c = '\t' || c = '\n' || c = '\x0d' || c = '\x0b' || c = '\x0c'

/-- `str.strip()` on the underlying character list. -/
def stripList (l : List Char) : List Char :=
  ((l.dropWhile isPySpace).reverse.dropWhile isPySpace).reverse

/-- Model of Python `s.strip()`. -/
def pyStrip (s : String) : String := ⟨stripList s.data⟩

/-- Upper-casing of a single character (ASCII, as used by the app's data). -/
def upperChar (c : Char) : Char :=
  if 97 ≤ c.toNat ∧ c.toNat ≤ 122 then Char.ofNat (c.toNat - 32) else c

/-- Lower-casing of a single character (ASCII, as used by the app's data). -/
def lowerChar (c : Char) : Char :=
  if 65 ≤ c.toNat ∧ c.toNat ≤ 90 then Char.ofNat (c.toNat + 32) else c

/-- Model of Python `s.upper()`. -/
def pyUpper (s : String) : String := ⟨s.data.map upperChar⟩

/-- Model of Python `s.lower()`. -/
def pyLower (s : String) : String := ⟨s.data.map lowerChar⟩

/-- Model of Python `s.startswith(p)`. -/
def pyStartsWith (s p : String) : Bool := p.data.isPrefixOf s.data

/-! ## Configuration constants (app.py lines 23-25) -/

def ITEMS_TOTAL : Int := 40

def DISCONTINUE_THRESHOLD : Int := 28

def ONE_BELOW_THRESHOLD : Int := 16

/-! ## Placement engine (app.py lines 61-72) -/

/-- `clamp(n, lo, hi)` from app.py line 61. -/
def clamp (n lo hi : Int) : Int := max lo (min hi n)

/-- `compute_total` from app.py line 64: `int(lit or 0) + int(inf or 0) + int(cri or 0)`.
A `None` sub-score contributes 0 (`x or 0` also maps the integer 0 to 0,
which is the same value). -/
def compute_total (lit inf cri : Option Int) : Int :=
  lit.getD 0 + inf.getD 0 + cri.getD 0

/-- `starting_point_for` from app.py lines 67-72. -/
def starting_point_for (grade total : Int) : String :=
  if DISCONTINUE_THRESHOLD ≤ total then "DISCONTINUE"
  else
    let base := max 1 (grade - 1)
    let startLevel := max 1 (if ONE_BELOW_THRESHOLD ≤ total then base - 1 else base - 2)
    "Grade " ++ toString startLevel

/-- The numeric grade level chosen by `starting_point_for` below the
discontinue threshold (the `start_level` local of app.py line 71). -/
def start_level (grade total : Int) : Int :=
  max 1 (if ONE_BELOW_THRESHOLD ≤ total then max 1 (grade - 1) - 1 else max 1 (grade - 1) - 2)

/-! ## Roster ordering (app.py lines 74-87) -/

/-- `_gender_bucket` from app.py lines 74-80.  The argument is `Option`al:
`(g or "").strip().upper()` maps `None` to the empty string. -/
def _gender_bucket (g : Option String) : Nat :=
  let s := pyUpper (pyStrip (g.getD ""))
  if pyStartsWith s "M" then 0 else if pyStartsWith s "F" then 1 else 2

/-- A roster row dict as built by the `gst_en`/`gst_fil` views:
`{"name": ..., "gender": ..., "score": ..., "start": ...}`. -/
structure Row where
  name : String
  gender : String
  score : Int
  start : String
deriving DecidableEq

/-- The sort key of `_sort_rows` (app.py lines 82-87): the pair of the
gender bucket and the trimmed upper-cased name. -/
def rowKey (r : Row) : Nat × String :=
  (_gender_bucket (some r.gender), pyUpper (pyStrip r.name))

/-- Lexicographic comparison of row keys, as Python tuple comparison
orders the keys passed to `sorted`. -/
def rowLE (a b : Row) : Bool :=
  decide ((rowKey a).1 < (rowKey b).1) ||
    (decide ((rowKey a).1 = (rowKey b).1) && decide ((rowKey a).2 ≤ (rowKey b).2))

/-- `_sort_rows` from app.py lines 82-87: Python `sorted` is a stable sort
by the key; modelled by the stable `List.mergeSort`. -/
def _sort_rows (rows : List Row) : List Row :=
  rows.mergeSort rowLE

/-- The learner row of the C6 scenario named Juan, gender M. -/
def juanRow : Row := ⟨"Juan", "M", 20, "Grade 5"⟩

/-- The learner row of the C6 scenario named Maria, gender F. -/
def mariaRow : Row := ⟨"Maria", "F", 20, "Grade 5"⟩

/-- The gender-bucket mapping as the spec describes it: 0 when the trimmed
input starts with M or m, 1 when it starts with F or f, 2 otherwise
(including `None` and the empty string). -/
def bucketSpec (g : Option String) : Nat :=
  match (pyStrip (g.getD "")).data with
  | [] => 2
  | c :: _ =>
    if c = 'M' ∨ c = 'm' then 0 else if c = 'F' ∨ c = 'f' then 1 else 2

/-! ## Structural document model

A document is a sequence of tables; a table is a grid of rows of cells;
a cell holds paragraphs of styled runs.  Paragraph spacing values are in
points (`Pt`), `none` meaning "inherit from the style"; `line_spacing` is
the multiple used by the code (always set to 1). -/

inductive Align
  | center
  | leftAlign
deriving DecidableEq

structure Run where
  text : String
  bold : Bool
  underline : Bool
deriving DecidableEq

structure Paragraph where
  runs : List Run
  space_before : Option Nat
  space_after : Option Nat
  line_spacing : Option Nat
  alignment : Option Align
deriving DecidableEq

structure Cell where
  paragraphs : List Paragraph
deriving DecidableEq

structure Table where
  rows : List (List Cell)
deriving DecidableEq

/-- The number of grid columns of a table (python-docx `len(tbl.columns)`,
read off the first row of the grid). -/
def numColumns (t : Table) : Nat := (t.rows.head?.map List.length).getD 0

/-- `tbl.cell(r, c)`; `none` models the `IndexError` of an out-of-range
access. -/
def cellAt (t : Table) (r c : Nat) : Option Cell :=
  (t.rows[r]?).bind fun row => row[c]?

/-- Paragraph text: concatenation of the run texts. -/
def paraText (p : Paragraph) : String := String.join (p.runs.map Run.text)

/-- python-docx `cell.text` getter: paragraph texts joined by newlines. -/
def cellText (c : Cell) : String :=
  String.intercalate "\n" (c.paragraphs.map paraText)

/-- A fresh empty cell (one default paragraph, no runs), as produced by
python-docx when a row is added. -/
def emptyCell : Cell := ⟨[⟨[], none, none, none, none⟩]⟩

/-- In-place update of the element at an index; out of range is a no-op. -/
def listModify (f : α → α) : Nat → List α → List α
  | _, [] => []
  | 0, a :: as => f a :: as
  | n + 1, a :: as => a :: listModify f n as

/-! ## Template population helpers (app.py lines 102-149) -/

/-- `_set_p_no_space` from app.py lines 103-107. -/
def _set_p_no_space (p : Paragraph) : Paragraph :=
  { p with space_before := some 0, space_after := some 0, line_spacing := some 1 }

/-- `_set_cell_paras_no_space` from app.py lines 109-111. -/
def _set_cell_paras_no_space (c : Cell) : Cell :=
  ⟨c.paragraphs.map _set_p_no_space⟩

/-- `_cell_set_text` from app.py lines 127-146: `cell.text = ""` replaces
the cell content by a single paragraph (the empty-text run it carries is
textless and is not modelled), the paragraph is tightened, optionally
aligned, and one run with the (optionally upper-cased) text is appended. -/
def _cell_set_text (cell : Cell) (text : String) (bold underline : Bool)
    (align : Option Align) (upper : Bool) : Cell :=
  let p0 : Paragraph := ⟨[], none, none, none, none⟩
  let p1 := _set_p_no_space p0
  let p2 := match align with
    | none => p1
    | some a => { p1 with alignment := some a }
  let runText := if upper then pyUpper text else text
  let r : Run := ⟨runText, bold, underline⟩
  ⟨[{ p2 with runs := p2.runs ++ [r] }]⟩

/-- `_norm` from app.py lines 148-149. -/
def _norm (s : String) : String := pyLower (pyStrip s)

/-- Substring test on character lists (model of Python `sub in s`). -/
def listContainsSub : List Char → List Char → Bool
  | [], sub => sub.isPrefixOf ([] : List Char)
  | hay@(_ :: t), sub => sub.isPrefixOf hay || listContainsSub t sub

/-- Model of Python `sub in s` for strings. -/
def pyContains (s sub : String) : Bool := listContainsSub s.data sub.data

/-! ## Table predicates (app.py lines 151-173)

Each predicate wraps its structural probe in `try/except`; the probe is
modelled as an `Except`-valued body where a failing cell access is an
`error`, and the published predicate maps `error` to `False` exactly as
the `except` clause does. -/

/-- Body of `_looks_like_meta_table` (app.py lines 151-163). -/
def _looks_like_meta_tableE (t : Table) : Except Unit Bool :=
  if 3 ≤ t.rows.length ∧ 4 ≤ numColumns t then
    match cellAt t 0 0, cellAt t 0 2 with
    | some c0, some c2 =>
      let a := _norm (cellText c0)
      let b := _norm (cellText c2)
      Except.ok ((pyStartsWith a "teacher" && pyStartsWith b "grade") ||
        (pyStartsWith a "guro" && pyStartsWith b "antas"))
    | _, _ => Except.error ()
  else
    Except.ok false

/-- `_looks_like_meta_table` from app.py lines 151-163. -/
def _looks_like_meta_table (t : Table) : Bool :=
  match _looks_like_meta_tableE t with
  | Except.ok b => b
  | Except.error _ => false

/-- Body of `_looks_like_results_table` (app.py lines 165-173):
`tbl.rows[0]` raises on a rowless table. -/
def _looks_like_results_tableE (t : Table) : Except Unit Bool :=
  match t.rows[0]? with
  | none => Except.error ()
  | some row0 =>
    let hdr := String.intercalate " " (row0.map fun c => pyUpper (pyStrip (cellText c)))
    let hasName := pyContains hdr "NAME" || pyContains hdr "PANGALAN"
    let hasGender := pyContains hdr "GENDER" || pyContains hdr "KASARIAN"
    let hasScore := pyContains hdr "SCORE" || pyContains hdr "MARKA"
    Except.ok (hasName && hasGender && hasScore)

/-- `_looks_like_results_table` from app.py lines 165-173. -/
def _looks_like_results_table (t : Table) : Bool :=
  match _looks_like_results_tableE t with
  | Except.ok b => b
  | Except.error _ => false

/-! ## The locator loop and the populator (app.py lines 175-239) -/

/-- The class metadata dict passed to the populator (the `section` key is
named `sect` because `section` is a Lean keyword). -/
structure ClsDict where
  teacher : String
  school : String
  grade : Int
  sect : String
  date_text : String
deriving DecidableEq

/-- The table scan of app.py lines 190-196, carried out over indexed
tables: `if` takes a meta candidate while none is chosen, `elif` takes a
results candidate otherwise, and the loop breaks once both are found. -/
def locateLoop : Nat → List Table → Option Nat → Option Nat → Option Nat × Option Nat
  | _, [], m, r => (m, r)
  | i, t :: ts, m, r =>
    let takeMeta := m.isNone && _looks_like_meta_table t
    let m2 := if takeMeta then some i else m
    let r2 := if takeMeta then r
      else if r.isNone && _looks_like_results_table t then some i else r
    if m2.isSome && r2.isSome then (m2, r2) else locateLoop (i + 1) ts m2 r2

/-- The locator over a document's table list. -/
def locateTables (doc : List Table) : Option Nat × Option Nat :=
  locateLoop 0 doc none none

/-- Update one cell of a table in place. -/
def updateCell (t : Table) (r c : Nat) (f : Cell → Cell) : Table :=
  ⟨listModify (fun row => listModify f c row) r t.rows⟩

/-- One meta value write of app.py lines 202-209: underlined, not bold,
upper-cased, no explicit alignment. -/
def setValueCell (t : Table) (r c : Nat) (s : String) : Table :=
  updateCell t r c fun cell => _cell_set_text cell s false true none true

/-- The meta-table portion of `_fill_template_tables` (app.py lines
201-213): the six value writes followed by the spacing normalization of
every cell of the table. -/
def fillMetaTable (t : Table) (cls : ClsDict) (type_of_test_text : String) : Table :=
  let t1 := setValueCell t 0 1 cls.teacher
  let t2 := setValueCell t1 0 3 (toString cls.grade)
  let t3 := setValueCell t2 1 1 cls.school
  let t4 := setValueCell t3 1 3 cls.sect
  let t5 := setValueCell t4 2 1 type_of_test_text
  let t6 := setValueCell t5 2 3 cls.date_text
  ⟨t6.rows.map fun row => row.map _set_cell_paras_no_space⟩

/-- `add_row` repeated: append rows of `ncols` empty cells (app.py lines
216-219). -/
def addRowsN (ncols : Nat) (rows : List (List Cell)) : Nat → List (List Cell)
  | 0 => rows
  | n + 1 => addRowsN ncols (rows ++ [List.replicate ncols emptyCell]) n

/-- One data row write of app.py lines 221-229.  The app's templates have
at least five columns; a write into a missing cell is modelled as a no-op.
`i` is the 1-based running index written into the first column. -/
def fillResultRow (row : List Cell) (i : Nat) (rec : Row) : List Cell :=
  let r0 := listModify
    (fun c => _cell_set_text c (toString i) false false (some Align.center) false) 0 row
  let r1 := listModify (fun c => _cell_set_text c rec.name false false none true) 1 r0
  let r2 := listModify
    (fun c => _cell_set_text c rec.gender false false (some Align.center) true) 2 r1
  let r3 := listModify
    (fun c => _cell_set_text c (toString rec.score) false false (some Align.center) false) 3 r2
  let r4 := listModify
    (fun c => _cell_set_text c rec.start false false (some Align.center) true) 4 r3
  r4.map _set_cell_paras_no_space

/-- The enumerate loop of app.py line 221: record `i` (1-based) goes into
table row `start_row_index + (i - 1) = i`. -/
def fillRowsGo : Nat → List Row → List (List Cell) → List (List Cell)
  | _, [], rows => rows
  | i, rec :: recs, rows =>
    fillRowsGo (i + 1) recs (listModify (fun row => fillResultRow row i rec) i rows)

/-- Blanking write of app.py line 234: empty text, not upper-cased. -/
def blankCell (c : Cell) : Cell := _cell_set_text c "" false false none false

/-- The results-table portion of `_fill_template_tables` (app.py lines
215-237): grow to `1 + max 1 rowCount` rows, write the data rows, blank
the surplus rows, and tighten the header row. -/
def fillResultsTable (t : Table) (recs : List Row) : Table :=
  let needed := 1 + max 1 recs.length
  let grown := addRowsN (numColumns t) t.rows (needed - t.rows.length)
  let written := fillRowsGo 1 recs grown
  let blanked := written.take (1 + recs.length) ++
    (written.drop (1 + recs.length)).map fun row => row.map blankCell
  ⟨listModify (fun row => row.map _set_cell_paras_no_space) 0 blanked⟩

/-- `_fill_template_tables` from app.py lines 175-239: locate the two
tables, return `False` if either is missing, otherwise populate both in
place and return `True`. -/
def _fill_template_tables (doc : List Table) (cls : ClsDict) (recs : List Row)
    (type_of_test_text : String) : Bool × List Table :=
  match locateTables doc with
  | (some mi, some ri) =>
    let doc1 := listModify (fun t => fillMetaTable t cls type_of_test_text) mi doc
    let doc2 := listModify (fun t => fillResultsTable t recs) ri doc1
    (true, doc2)
  | _ => (false, doc)

/-! ## Spec-side locator description (for the amended C5) -/

/-- First index at or after `i` holding a results table, skipping the index
`mi` chosen as the meta table. -/
def resultsSpecGo (mi : Option Nat) : Nat → List Table → Option Nat
  | _, [] => none
  | i, t :: ts =>
    if _looks_like_results_table t && !(decide (mi = some i)) then some i
    else resultsSpecGo mi (i + 1) ts

/-- Modelled from the spec sentence of C5, adjusted by the `elif`: the
results table is the first table satisfying the results predicate among
the tables other than the one chosen as the meta table. -/
def resultsSpec (doc : List Table) : Option Nat :=
  resultsSpecGo (doc.findIdx? _looks_like_meta_table) 0 doc

/-! ## Roster construction of the GST views (app.py lines 457-496) -/

/-- A learner record (the English-test fields used by the `gst_en` routes;
sub-scores are nullable integer columns). -/
structure Learner where
  name : String
  gender : String
  took_eng : Bool
  eng_literal : Option Int
  eng_inferential : Option Int
  eng_critical : Option Int
deriving DecidableEq

/-- The row dict built for a learner by `gst_en`/`export_gst_en_docx`. -/
def mkEnRow (grade : Int) (s : Learner) : Row :=
  let total := compute_total s.eng_literal s.eng_inferential s.eng_critical
  ⟨s.name, s.gender, total, starting_point_for grade total⟩

/-- The loop body of app.py lines 463-469: the optional row a learner
contributes (skip when the test was not taken or the starting point is
`"DISCONTINUE"`). -/
def gstEnRowOf (grade : Int) (s : Learner) : Option Row :=
  if s.took_eng then
    (let total := compute_total s.eng_literal s.eng_inferential s.eng_critical
     let sp := starting_point_for grade total
     if sp ≠ "DISCONTINUE" then some ⟨s.name, s.gender, total, sp⟩ else none)
  else none

/-- The learners contributing a row: took the test and total below the
discontinue threshold. -/
def takesAndBelow (s : Learner) : Bool :=
  s.took_eng && decide (compute_total s.eng_literal s.eng_inferential s.eng_critical < 28)

/-- The roster built by the `gst_en` view (app.py lines 461-470): skip
learners who did not take the test, drop `"DISCONTINUE"` rows, sort. -/
def gst_en_rows (grade : Int) (learners : List Learner) : List Row :=
  _sort_rows (learners.filterMap (gstEnRowOf grade))

/-- The roster built by `export_gst_en_docx` (app.py lines 476-485); the
code duplicates the view's construction verbatim. -/
def export_gst_en_rows (grade : Int) (learners : List Learner) : List Row :=
  _sort_rows (learners.filterMap (gstEnRowOf grade))

/-! ## Concrete fixtures used by counterexamples and witnesses -/

/-- A cell holding one plain run of text. -/
def textCell (s : String) : Cell := ⟨[⟨[⟨s, false, false⟩], none, none, none, none⟩]⟩

/-- An empty class-metadata record. -/
def emptyCls : ClsDict := ⟨"", "", 7, "", ""⟩

/-- A well-formed metadata table; no table in the same document satisfies
the results predicate. -/
def metaOnlyTable : Table :=
  ⟨[[textCell "Teacher:", textCell "", textCell "Grade:", textCell ""],
    [textCell "School:", textCell "", textCell "Section:", textCell ""],
    [textCell "Type of Test:", textCell "", textCell "Date:", textCell ""]]⟩

/-- A table satisfying BOTH predicates: its first-row labels start with
"teacher"/"grade" and its header mentions NAME, GENDER and SCORE. -/
def dualTable : Table :=
  ⟨[[textCell "Teacher Name", textCell "", textCell "Grade Gender Score", textCell ""],
    [textCell "", textCell "", textCell "", textCell ""],
    [textCell "", textCell "", textCell "", textCell ""]]⟩

/-- A one-row header table satisfying only the results predicate. -/
def resultsOnlyTable : Table :=
  ⟨[[textCell "#", textCell "NAME", textCell "GENDER", textCell "SCORE",
     textCell "START LEVEL"]]⟩

/-- A label cell carrying template styling: bold run and 6pt space before. -/
def styledLabelCell : Cell := ⟨[⟨[⟨"Teacher:", true, false⟩], some 6, none, none, none⟩]⟩

/-- A metadata table whose first label cell carries paragraph spacing. -/
def metaTableStyled : Table :=
  ⟨[[styledLabelCell, textCell "", textCell "Grade:", textCell ""],
    [textCell "School:", textCell "", textCell "Section:", textCell ""],
    [textCell "Type of Test:", textCell "", textCell "Date:", textCell ""]]⟩

/-- The normalized value cell produced for a meta value `v`. -/
def metaValueCell (v : String) : Cell :=
  ⟨[⟨[⟨pyUpper v, false, true⟩], some 0, some 0, some 1, none⟩]⟩

/-- A learner whose English total is 29, hence `"DISCONTINUE"`. -/
def discLearner : Learner := ⟨"Zed", "M", true, some 10, some 10, some 9⟩

/-! ## Generic facts about the strings produced by the placement engine -/

theorem grade_string_ne_discontinue (s : String) : "Grade " ++ s ≠ "DISCONTINUE" := by
  intro h
  have h2 := congrArg String.data h
  rw [String.data_append] at h2
  have h3 : ("Grade ").data = ['G', 'r', 'a', 'd', 'e', ' '] := rfl
  have h4 : ("DISCONTINUE").data = ['D', 'I', 'S', 'C', 'O', 'N', 'T', 'I', 'N', 'U', 'E'] := rfl
  rw [h3, h4] at h2
  simp at h2

theorem starting_point_below (grade total : Int) (h : total < 28) :
    starting_point_for grade total = "Grade " ++ toString (start_level grade total) := by
  unfold starting_point_for start_level
  rw [if_neg (by unfold DISCONTINUE_THRESHOLD; omega)]

theorem starting_point_discontinue_iff (grade total : Int) :
    starting_point_for grade total = "DISCONTINUE" ↔ 28 ≤ total := by
  constructor
  · intro h
    by_contra hc
    rw [starting_point_below grade total (by omega)] at h
    exact grade_string_ne_discontinue _ h
  · intro h
    unfold starting_point_for
    rw [if_pos (by unfold DISCONTINUE_THRESHOLD; omega)]

/-- C1: `startingPointFor(grade, total)` returns `"DISCONTINUE"` iff
`total >= 28`; otherwise, with `base = max(1, grade - 1)`, it returns
`"Grade L"` where `L = max(1, base - 1)` when `total >= 16` and
`L = max(1, base - 2)` when `total < 16` (in particular the result is
floored at Grade 1). -/
theorem C1_starting_point_cases (grade total : Int) :
    (starting_point_for grade total = "DISCONTINUE" ↔ 28 ≤ total) ∧
    (total < 28 →
      starting_point_for grade total =
        "Grade " ++ toString
          (if 16 ≤ total then max 1 (max 1 (grade - 1) - 1) else max 1 (max 1 (grade - 1) - 2))) := by
  refine ⟨starting_point_discontinue_iff grade total, fun h => ?_⟩
  rw [starting_point_below grade total h]
  unfold start_level ONE_BELOW_THRESHOLD
  by_cases h16 : (16 : Int) ≤ total
  · rw [if_pos h16, if_pos h16]
  · rw [if_neg h16, if_neg h16]

/-- Closed witness for C1 at concrete inputs: total 29 discontinues,
totals 16 and 15 for grade 7 give Grade 5 and Grade 4. -/
theorem C1_starting_point_cases_witness :
    starting_point_for 7 29 = "DISCONTINUE" ∧
    starting_point_for 7 16 = "Grade 5" ∧ starting_point_for 7 15 = "Grade 4" := by
  refine ⟨(C1_starting_point_cases 7 29).1.mpr (by decide), ?_, ?_⟩
  · rw [(C1_starting_point_cases 7 16).2 (by decide)]; decide
  · rw [(C1_starting_point_cases 7 15).2 (by decide)]; decide

/-- C2 fails on the code: for grade 7, raising the total from 15 to 16
raises the starting grade number from 4 to 5, so the grade-level number
is not non-increasing in the total. -/
theorem C2_counterexample :
    (15 : Int) ≤ 16 ∧ (16 : Int) < 28 ∧
    starting_point_for 7 15 = "Grade 4" ∧ starting_point_for 7 16 = "Grade 5" ∧
    ¬ start_level 7 16 ≤ start_level 7 15 := by
  refine ⟨by decide, by decide, ?_, ?_, by decide⟩
  · rw [starting_point_below 7 15 (by decide)]; decide
  · rw [starting_point_below 7 16 (by decide)]; decide

/-- C2 amended: for every fixed grade in [1,12], the grade-level number in
the string returned by `startingPointFor` is non-DEcreasing as the total
increases over totals below the discontinue threshold: a higher total never
yields a result with a strictly smaller grade number. -/
theorem C2_start_level_monotone (g t1 t2 : Int) (hg1 : 1 ≤ g) (hg2 : g ≤ 12)
    (h12 : t1 ≤ t2) (h28 : t2 < 28) :
    starting_point_for g t1 = "Grade " ++ toString (start_level g t1) ∧
    starting_point_for g t2 = "Grade " ++ toString (start_level g t2) ∧
    start_level g t1 ≤ start_level g t2 := by
  refine ⟨starting_point_below g t1 (by omega), starting_point_below g t2 (by omega), ?_⟩
  unfold start_level ONE_BELOW_THRESHOLD
  by_cases h1 : (16 : Int) ≤ t1
  · rw [if_pos h1, if_pos (by omega : (16 : Int) ≤ t2)]
  · by_cases h2 : (16 : Int) ≤ t2
    · rw [if_neg h1, if_pos h2]
      exact max_le_max (le_refl 1) (by omega)
    · rw [if_neg h1, if_neg h2]

/-- Closed witness for C2 amended at grade 7, totals 10 and 20. -/
theorem C2_start_level_monotone_witness :
    starting_point_for 7 10 = "Grade " ++ toString (start_level 7 10) ∧
    starting_point_for 7 20 = "Grade " ++ toString (start_level 7 20) ∧
    start_level 7 10 ≤ start_level 7 20 :=
  C2_start_level_monotone 7 10 20 (by decide) (by decide) (by decide) (by decide)

/-- C7 fails on the code as universally stated: a negative sub-score gives a
negative total, `compute_total(-1, None, None) = -1 < 0`. -/
theorem C7_counterexample :
    compute_total (some (-1)) none none = -1 ∧ ¬ 0 ≤ compute_total (some (-1)) none none := by
  constructor <;> decide

/-- C7 amended: `computeTotal` treats missing/`None` inputs as 0 (so
`computeTotal(None, None, None) = 0`, and it is a total function, never
raising), and its result is non-negative whenever every sub-score that is
present is non-negative. -/
theorem C7_compute_total (lit inf cri : Option Int)
    (hl : ∀ x ∈ lit, 0 ≤ x) (hi : ∀ x ∈ inf, 0 ≤ x) (hc : ∀ x ∈ cri, 0 ≤ x) :
    compute_total none none none = 0 ∧
    compute_total lit inf cri = lit.getD 0 + inf.getD 0 + cri.getD 0 ∧
    0 ≤ compute_total lit inf cri := by
  refine ⟨rfl, rfl, ?_⟩
  unfold compute_total
  rcases lit with _ | a <;> rcases inf with _ | b <;> rcases cri with _ | c <;>
    simp_all <;> omega

/-- Closed witness for C7 amended at concrete non-negative inputs. -/
theorem C7_compute_total_witness :
    compute_total none none none = 0 ∧
    compute_total (some 3) none (some 0) = (some (3 : Int)).getD 0 + (none : Option Int).getD 0 + (some (0 : Int)).getD 0 ∧
    0 ≤ compute_total (some 3) none (some 0) :=
  C7_compute_total (some 3) none (some 0) (by decide) (by decide) (by decide)

/-! ## Character-level facts about upper-casing -/

theorem char_toNat_inj {a b : Char} (h : a.toNat = b.toNat) : a = b :=
  Char.eq_of_val_eq (UInt32.toNat.inj h)

theorem toNat_ofNat_valid (n : Nat) (h1 : 65 ≤ n) (h2 : n ≤ 90) :
    (Char.ofNat n).toNat = n := by
  interval_cases n <;> decide

theorem upperChar_eq_upper (u lo : Char) (h1 : 65 ≤ u.toNat) (h2 : u.toNat ≤ 90)
    (hlo : lo.toNat = u.toNat + 32) (c : Char) :
    upperChar c = u ↔ c = u ∨ c = lo := by
  unfold upperChar
  by_cases h : 97 ≤ c.toNat ∧ c.toNat ≤ 122
  · rw [if_pos h]
    constructor
    · intro he
      have h3 : (Char.ofNat (c.toNat - 32)).toNat = c.toNat - 32 :=
        toNat_ofNat_valid _ (by omega) (by omega)
      have h4 := congrArg Char.toNat he
      rw [h3] at h4
      right
      exact char_toNat_inj (by omega)
    · intro hor
      rcases hor with he | he
      · exfalso
        rw [he] at h
        exact absurd h.1 (by omega)
      · rw [he]
        have h5 : lo.toNat - 32 = u.toNat := by omega
        rw [h5, Char.ofNat_toNat]
  · rw [if_neg h]
    constructor
    · intro he
      left
      exact he
    · intro hor
      rcases hor with he | he
      · exact he
      · exfalso
        apply h
        have h6 := congrArg Char.toNat he
        constructor
        · omega
        · omega

theorem upperChar_eq_M (c : Char) : upperChar c = 'M' ↔ c = 'M' ∨ c = 'm' :=
  upperChar_eq_upper 'M' 'm' (by decide) (by decide) (by decide) c

theorem upperChar_eq_F (c : Char) : upperChar c = 'F' ↔ c = 'F' ∨ c = 'f' :=
  upperChar_eq_upper 'F' 'f' (by decide) (by decide) (by decide) c

/-- C10: the gender-bucket function is total and insensitive to case and
surrounding whitespace: for every input, including `None`, it returns 0
when the trimmed input starts with M or m, 1 when it starts with F or f,
and 2 otherwise (`None` and the empty string map to 2). -/
theorem C10_gender_bucket_spec (g : Option String) :
    _gender_bucket g = bucketSpec g := by
  unfold _gender_bucket bucketSpec pyUpper pyStartsWith pyStrip
  cases h : stripList (g.getD "").data with
  | nil => simp [h, List.isPrefixOf]
  | cons c cs =>
    simp only [h, List.map_cons]
    have hM : (("M" : String).data.isPrefixOf (upperChar c :: cs.map upperChar)) =
        decide (upperChar c = 'M') := by
      show (['M'].isPrefixOf (upperChar c :: cs.map upperChar)) = _
      simp [List.isPrefixOf, BEq.beq, eq_comm]
    have hF : (("F" : String).data.isPrefixOf (upperChar c :: cs.map upperChar)) =
        decide (upperChar c = 'F') := by
      show (['F'].isPrefixOf (upperChar c :: cs.map upperChar)) = _
      simp [List.isPrefixOf, BEq.beq, eq_comm]
    simp only [hM, hF]
    by_cases hm : upperChar c = 'M'
    · rw [if_pos (by simp [hm]), if_pos ((upperChar_eq_M c).mp hm)]
    · rw [if_neg (by simp [hm]), if_neg (fun hor => hm ((upperChar_eq_M c).mpr hor))]
      by_cases hf : upperChar c = 'F'
      · rw [if_pos (by simp [hf]), if_pos ((upperChar_eq_F c).mp hf)]
      · rw [if_neg (by simp [hf]), if_neg (fun hor => hf ((upperChar_eq_F c).mpr hor))]

/-! ## Order facts about the row comparison -/

theorem rowLE_iff (a b : Row) :
    rowLE a b = true ↔
      ((rowKey a).1 < (rowKey b).1 ∨
        ((rowKey a).1 = (rowKey b).1 ∧ (rowKey a).2 ≤ (rowKey b).2)) := by
  unfold rowLE
  simp [Bool.or_eq_true, Bool.and_eq_true, decide_eq_true_eq]

theorem rowLE_total (a b : Row) : (rowLE a b || rowLE b a) = true := by
  rw [Bool.or_eq_true, rowLE_iff, rowLE_iff]
  rcases Nat.lt_trichotomy (rowKey a).1 (rowKey b).1 with h | h | h
  · exact Or.inl (Or.inl h)
  · rcases le_total (rowKey a).2 (rowKey b).2 with h2 | h2
    · exact Or.inl (Or.inr ⟨h, h2⟩)
    · exact Or.inr (Or.inr ⟨h.symm, h2⟩)
  · exact Or.inr (Or.inl h)

theorem rowLE_trans (a b c : Row) (h1 : rowLE a b = true) (h2 : rowLE b c = true) :
    rowLE a c = true := by
  rw [rowLE_iff] at h1 h2 ⊢
  rcases h1 with h1 | ⟨h1e, h1n⟩ <;> rcases h2 with h2 | ⟨h2e, h2n⟩
  · exact Or.inl (h1.trans h2)
  · exact Or.inl (h2e ▸ h1)
  · exact Or.inl (h1e ▸ h2)
  · exact Or.inr ⟨h1e.trans h2e, h1n.trans h2n⟩

theorem sort_rows_pair_le (a b : Row) (h : rowLE a b = true) :
    _sort_rows [a, b] = [a, b] := by
  have hsub : [a, b].Sublist (_sort_rows [a, b]) :=
    List.sublist_mergeSort rowLE_trans rowLE_total
      (List.pairwise_pair.mpr h) (List.Sublist.refl _)
  have hlen : (_sort_rows [a, b]).length = 2 :=
    (List.mergeSort_perm [a, b] rowLE).length_eq
  exact (hsub.eq_of_length (by simp [hlen])).symm

theorem sort_rows_pair_swap (a b : Row) (h : rowLE a b = false) :
    _sort_rows [a, b] = [b, a] := by
  have hba : rowLE b a = true := by
    have ht := rowLE_total a b
    rw [h, Bool.false_or] at ht
    exact ht
  have hab : a ≠ b := by
    intro he
    rw [he] at h
    rw [he, h] at hba
    exact Bool.false_ne_true hba
  have hperm : (_sort_rows [a, b]).Perm [a, b] := List.mergeSort_perm [a, b] rowLE
  have hpw := List.sorted_mergeSort rowLE_trans rowLE_total [a, b]
  have hlen : (_sort_rows [a, b]).length = 2 := hperm.length_eq
  obtain ⟨x, y, hxy⟩ := List.length_eq_two.mp hlen
  have hpw2 : List.Pairwise (fun a b => rowLE a b = true) [x, y] := by
    rw [← hxy]
    exact hpw
  rw [hxy] at hperm ⊢
  have hxmem : x ∈ [a, b] := hperm.mem_iff.mp (by simp)
  rw [List.pairwise_pair] at hpw2
  rcases (by simpa using hxmem : x = a ∨ x = b) with hx | hx
  · rw [hx] at hperm hpw2
    have hy : [y].Perm [b] := hperm.cons_inv
    have hyb : y = b := by simpa using hy.mem_iff.mp (by simp)
    rw [hyb] at hpw2
    rw [hpw2] at h
    exact Bool.noConfusion h
  · rw [hx] at hperm
    have hy : [y].Perm [a] := (hperm.trans (List.Perm.swap b a [])).cons_inv
    have hya : y = a := by simpa using hy.mem_iff.mp (by simp)
    rw [hx, hya]

/-- C6: `sortRows` returns the rows in a stable total order by the key
(genderBucket, upperName): the result is a permutation of the input,
sorted by the key, ties keep their original relative order, and the two
learners Juan (M) and Maria (F) with identical scores are ordered Juan
before Maria for both input orders. -/
theorem C6_sort_rows (rows : List Row) :
    (_sort_rows rows).Perm rows ∧
    List.Pairwise (fun a b => rowLE a b = true) (_sort_rows rows) ∧
    (∀ a b : Row, rowKey a = rowKey b →
      [a, b].Sublist rows → [a, b].Sublist (_sort_rows rows)) ∧
    _sort_rows [juanRow, mariaRow] = [juanRow, mariaRow] ∧
    _sort_rows [mariaRow, juanRow] = [juanRow, mariaRow] := by
  refine ⟨List.mergeSort_perm rows rowLE,
    List.sorted_mergeSort rowLE_trans rowLE_total rows, ?_,
    sort_rows_pair_le juanRow mariaRow (by decide),
    sort_rows_pair_swap mariaRow juanRow (by decide)⟩
  intro a b hk hsub
  refine List.sublist_mergeSort rowLE_trans rowLE_total ?_ hsub
  have hle : rowLE a b = true := by
    rw [rowLE_iff]
    exact Or.inr ⟨congrArg Prod.fst hk, le_of_eq (congrArg Prod.snd hk)⟩
  exact List.pairwise_pair.mpr hle

/-- Closed witness for C6: applying the stability clause to a duplicated
row inside a concrete list. -/
theorem C6_sort_rows_witness :
    [juanRow, juanRow].Sublist (_sort_rows [juanRow, juanRow]) :=
  (C6_sort_rows [juanRow, juanRow]).2.2.1 juanRow juanRow rfl (List.Sublist.refl _)

/-- C8: the two table-shape predicates never raise for a malformed or
inaccessible candidate table: a probe failure (the `Except.error` of the
modelled body, i.e. the caught exception) yields `False`, and concretely a
table with too few rows is a non-match for both predicates. -/
theorem C8_predicates_no_raise (t : Table) :
    (_looks_like_meta_tableE t = Except.error () → _looks_like_meta_table t = false) ∧
    (_looks_like_results_tableE t = Except.error () → _looks_like_results_table t = false) ∧
    (t.rows.length < 3 → _looks_like_meta_table t = false) ∧
    (t.rows = [] → _looks_like_results_table t = false) := by
  refine ⟨?_, ?_, ?_, ?_⟩
  · intro h
    unfold _looks_like_meta_table
    rw [h]
  · intro h
    unfold _looks_like_results_table
    rw [h]
  · intro h
    unfold _looks_like_meta_table _looks_like_meta_tableE
    rw [if_neg fun hc => absurd hc.1 (by omega)]
  · intro h
    unfold _looks_like_results_table _looks_like_results_tableE
    rw [h]
    rfl

/-- Closed witness for C8 at the rowless table. -/
theorem C8_predicates_no_raise_witness :
    _looks_like_meta_table ⟨[]⟩ = false ∧ _looks_like_results_table ⟨[]⟩ = false :=
  ⟨(C8_predicates_no_raise ⟨[]⟩).2.2.1 (by decide),
   (C8_predicates_no_raise ⟨[]⟩).2.2.2 rfl⟩

/-- C3 fails on the code: a document whose only table matches the metadata
predicate (one of the two required tables IS found) still makes
`_fill_template_tables` return `False`; the code returns `False` as soon
as either table is missing, and performs no best-effort writes. -/
theorem C3_counterexample :
    _looks_like_meta_table metaOnlyTable = true ∧
    (_fill_template_tables [metaOnlyTable] emptyCls [] "X").1 = false := by
  constructor
  · decide
  · decide

/-- C3 amended: the template populator returns `False` exactly when at
least one of the two required tables (metadata or results) is missing from
the document; when it returns `False` it performs no writes at all (the
document is unchanged), and the caller falls back to building from
scratch. -/
theorem C3_fill_false_iff (doc : List Table) (cls : ClsDict) (recs : List Row)
    (txt : String) :
    ((_fill_template_tables doc cls recs txt).1 = false ↔
      ((locateTables doc).1 = none ∨ (locateTables doc).2 = none)) ∧
    (((locateTables doc).1 = none ∨ (locateTables doc).2 = none) →
      (_fill_template_tables doc cls recs txt).2 = doc) := by
  unfold _fill_template_tables
  rcases h : locateTables doc with ⟨m, r⟩
  rcases m with _ | mi <;> rcases r with _ | ri <;> simp

/-- Closed witness for C3 amended on the empty document. -/
theorem C3_fill_false_iff_witness :
    (_fill_template_tables [] emptyCls [] "").2 = [] :=
  (C3_fill_false_iff [] emptyCls [] "").2 (Or.inl rfl)

/-- The per-learner row construction of the gst routes, as a filter+map:
a learner contributes a row iff it took the test and its total is below
the discontinue threshold. -/
theorem gst_en_filterMap (grade : Int) (learners : List Learner) :
    learners.filterMap (gstEnRowOf grade) =
      (learners.filter takesAndBelow).map (mkEnRow grade) := by
  induction learners with
  | nil => rfl
  | cons s ss ih =>
    by_cases ht : s.took_eng = true
    · by_cases h28 : compute_total s.eng_literal s.eng_inferential s.eng_critical < 28
      · have hsp : starting_point_for grade
            (compute_total s.eng_literal s.eng_inferential s.eng_critical) ≠
            "DISCONTINUE" := by
          intro he
          have h3 := (starting_point_discontinue_iff grade _).mp he
          omega
        have hcond : takesAndBelow s = true := by
          unfold takesAndBelow
          rw [ht, decide_eq_true h28, Bool.and_self]
        have hval : gstEnRowOf grade s = some (mkEnRow grade s) := by
          unfold gstEnRowOf
          rw [if_pos ht]
          show (if starting_point_for grade
              (compute_total s.eng_literal s.eng_inferential s.eng_critical) ≠
              "DISCONTINUE" then _ else none) = _
          rw [if_pos hsp]
          rfl
        rw [List.filterMap_cons_some hval, List.filter_cons_of_pos hcond,
          List.map_cons, ih]
      · have hsp : starting_point_for grade
            (compute_total s.eng_literal s.eng_inferential s.eng_critical) =
            "DISCONTINUE" :=
          (starting_point_discontinue_iff grade _).mpr (by omega)
        have hcond : takesAndBelow s = false := by
          unfold takesAndBelow
          rw [decide_eq_false h28, Bool.and_false]
        have hval : gstEnRowOf grade s = none := by
          unfold gstEnRowOf
          rw [if_pos ht]
          show (if starting_point_for grade
              (compute_total s.eng_literal s.eng_inferential s.eng_critical) ≠
              "DISCONTINUE" then _ else none) = _
          rw [if_neg fun hne => hne hsp]
        rw [List.filterMap_cons_none hval,
          List.filter_cons_of_neg (by rw [hcond]; exact Bool.false_ne_true), ih]
    · have ht2 : s.took_eng = false := by
        simp only [Bool.not_eq_true] at ht
        exact ht
      have hcond : takesAndBelow s = false := by
        unfold takesAndBelow
        rw [ht2, Bool.false_and]
      have hval : gstEnRowOf grade s = none := by
        unfold gstEnRowOf
        rw [if_neg fun hc => ht hc]
      rw [List.filterMap_cons_none hval,
        List.filter_cons_of_neg (by rw [hcond]; exact Bool.false_ne_true), ih]

/-- C9: every learner whose computed starting point is `"DISCONTINUE"`
(total >= 28) is omitted from the roster of both the on-screen view and
the export; the roster is a permutation of one row per taking,
non-discontinued learner carrying the computed total and starting point. -/
theorem C9_discontinue_omitted (grade : Int) (learners : List Learner) :
    (gst_en_rows grade learners).Perm
      ((learners.filter takesAndBelow).map (mkEnRow grade)) ∧
    export_gst_en_rows grade learners = gst_en_rows grade learners ∧
    ∀ s ∈ learners, s.took_eng = true →
      28 ≤ compute_total s.eng_literal s.eng_inferential s.eng_critical →
      mkEnRow grade s ∉ gst_en_rows grade learners := by
  have hperm : (gst_en_rows grade learners).Perm
      ((learners.filter takesAndBelow).map (mkEnRow grade)) := by
    unfold gst_en_rows
    rw [gst_en_filterMap grade learners]
    exact List.mergeSort_perm _ _
  refine ⟨hperm, rfl, ?_⟩
  intro s hs ht h28 hmem
  have hmem2 := hperm.mem_iff.mp hmem
  rw [List.mem_map] at hmem2
  obtain ⟨s2, hs2, heq⟩ := hmem2
  rw [List.mem_filter] at hs2
  have h28' : compute_total s2.eng_literal s2.eng_inferential s2.eng_critical < 28 := by
    have hq := hs2.2
    unfold takesAndBelow at hq
    rw [Bool.and_eq_true, decide_eq_true_eq] at hq
    exact hq.2
  have hstart := congrArg Row.start heq
  have hs2start : (mkEnRow grade s2).start =
      starting_point_for grade
        (compute_total s2.eng_literal s2.eng_inferential s2.eng_critical) := rfl
  have hsstart : (mkEnRow grade s).start =
      starting_point_for grade
        (compute_total s.eng_literal s.eng_inferential s.eng_critical) := rfl
  rw [hs2start, hsstart, (starting_point_discontinue_iff grade _).mpr h28] at hstart
  have h29 := (starting_point_discontinue_iff grade _).mp hstart
  omega

/-- Closed witness for C9: a learner with sub-scores 10+10+9 = 29 is
dropped from the grade-7 roster. -/
theorem C9_discontinue_omitted_witness :
    mkEnRow 7 discLearner ∉ gst_en_rows 7 [discLearner] :=
  (C9_discontinue_omitted 7 [discLearner]).2.2 discLearner (by simp) (by decide) (by decide)

/-! ## Cell-access lemmas for the populator -/

theorem listModify_getElem? {α : Type} (f : α → α) (i : Nat) (l : List α) (j : Nat) :
    (listModify f i l)[j]? = if i = j then l[j]?.map f else l[j]? := by
  induction l generalizing i j with
  | nil => cases i <;> cases j <;> simp [listModify]
  | cons a as ih =>
    cases i with
    | zero =>
      cases j with
      | zero => simp [listModify]
      | succ jj => simp [listModify]
    | succ ii =>
      cases j with
      | zero => simp [listModify]
      | succ jj => simp [listModify, ih]

theorem cellAt_updateCell (t : Table) (r c : Nat) (f : Cell → Cell) (r2 c2 : Nat) :
    cellAt (updateCell t r c f) r2 c2 =
      if r = r2 ∧ c = c2 then (cellAt t r2 c2).map f else cellAt t r2 c2 := by
  unfold cellAt updateCell
  show ((listModify (fun row => listModify f c row) r t.rows)[r2]?).bind (fun row => row[c2]?) = _
  rw [listModify_getElem?]
  by_cases hr : r = r2
  · rw [if_pos hr]
    by_cases hc : c = c2
    · rw [if_pos ⟨hr, hc⟩]
      rcases t.rows[r2]? with _ | row
      · rfl
      · show (listModify f c row)[c2]? = (row[c2]?).map f
        rw [listModify_getElem?, if_pos hc]
    · rw [if_neg fun hh => hc hh.2]
      rcases t.rows[r2]? with _ | row
      · rfl
      · show (listModify f c row)[c2]? = row[c2]?
        rw [listModify_getElem?, if_neg hc]
  · rw [if_neg hr, if_neg fun hh => hr hh.1]

theorem cellAt_setValueCell (t : Table) (r c : Nat) (s : String) (r2 c2 : Nat) :
    cellAt (setValueCell t r c s) r2 c2 =
      if r = r2 ∧ c = c2 then
        (cellAt t r2 c2).map fun cell => _cell_set_text cell s false true none true
      else cellAt t r2 c2 :=
  cellAt_updateCell t r c _ r2 c2

theorem cellAt_mapCells (t : Table) (g : Cell → Cell) (r c : Nat) :
    cellAt ⟨t.rows.map fun row => row.map g⟩ r c = (cellAt t r c).map g := by
  unfold cellAt
  show ((t.rows.map fun row => row.map g)[r]?).bind (fun row => row[c]?) = _
  rw [List.getElem?_map]
  rcases t.rows[r]? with _ | row
  · rfl
  · show ((row.map g)[c]?) = (row[c]?).map g
    rw [List.getElem?_map]

theorem setThenNorm (cell : Cell) (v : String) :
    _set_cell_paras_no_space (_cell_set_text cell v false true none true) =
      metaValueCell v := rfl

/-- C4 fails on the code: the label cell at row 0 column 0 has its
paragraph spacing rewritten by the normalization pass of app.py lines
211-213 (6pt space-before becomes 0), so label-cell paragraph formatting
is not identical before and after population. -/
theorem C4_counterexample :
    ((cellAt metaTableStyled 0 0).map fun c => c.paragraphs.map Paragraph.space_before) =
      some [some 6] ∧
    ((cellAt (fillMetaTable metaTableStyled emptyCls "T") 0 0).map
      fun c => c.paragraphs.map Paragraph.space_before) = some [some 0] := by
  constructor
  · decide
  · decide

/-- C4 amended: populating the metadata region writes exactly the six
value cells (row 0/1/2, columns 1 and 3), each as a single tight paragraph
holding one underlined, not bold, upper-cased run; the label cells in
columns 0 and 2 keep their text, runs and alignment unchanged, but every
cell of the table (labels included) has its paragraph spacing normalized
to space-before 0, space-after 0, line spacing 1. -/
theorem C4_meta_population (t : Table) (cls : ClsDict) (txt : String) :
    cellAt (fillMetaTable t cls txt) 0 1 =
      (cellAt t 0 1).map (fun _ => metaValueCell cls.teacher) ∧
    cellAt (fillMetaTable t cls txt) 0 3 =
      (cellAt t 0 3).map (fun _ => metaValueCell (toString cls.grade)) ∧
    cellAt (fillMetaTable t cls txt) 1 1 =
      (cellAt t 1 1).map (fun _ => metaValueCell cls.school) ∧
    cellAt (fillMetaTable t cls txt) 1 3 =
      (cellAt t 1 3).map (fun _ => metaValueCell cls.sect) ∧
    cellAt (fillMetaTable t cls txt) 2 1 =
      (cellAt t 2 1).map (fun _ => metaValueCell txt) ∧
    cellAt (fillMetaTable t cls txt) 2 3 =
      (cellAt t 2 3).map (fun _ => metaValueCell cls.date_text) ∧
    (∀ r c, c = 0 ∨ c = 2 →
      cellAt (fillMetaTable t cls txt) r c = (cellAt t r c).map _set_cell_paras_no_space) ∧
    ∀ cell : Cell,
      (_set_cell_paras_no_space cell).paragraphs.map Paragraph.runs =
        cell.paragraphs.map Paragraph.runs ∧
      (_set_cell_paras_no_space cell).paragraphs.map Paragraph.alignment =
        cell.paragraphs.map Paragraph.alignment := by
  have hfm : fillMetaTable t cls txt =
      ⟨(setValueCell (setValueCell (setValueCell (setValueCell (setValueCell
          (setValueCell t 0 1 cls.teacher) 0 3 (toString cls.grade))
          1 1 cls.school) 1 3 cls.sect) 2 1 txt) 2 3 cls.date_text).rows.map
        fun row => row.map _set_cell_paras_no_space⟩ := rfl
  refine ⟨?_, ?_, ?_, ?_, ?_, ?_, ?_, ?_⟩
  · rw [hfm, cellAt_mapCells]
    simp only [cellAt_setValueCell]
    norm_num
    rcases cellAt t 0 1 with _ | cell
    · rfl
    · exact congrArg some (setThenNorm cell cls.teacher)
  · rw [hfm, cellAt_mapCells]
    simp only [cellAt_setValueCell]
    norm_num
    rcases cellAt t 0 3 with _ | cell
    · rfl
    · exact congrArg some (setThenNorm cell (toString cls.grade))
  · rw [hfm, cellAt_mapCells]
    simp only [cellAt_setValueCell]
    norm_num
    rcases cellAt t 1 1 with _ | cell
    · rfl
    · exact congrArg some (setThenNorm cell cls.school)
  · rw [hfm, cellAt_mapCells]
    simp only [cellAt_setValueCell]
    norm_num
    rcases cellAt t 1 3 with _ | cell
    · rfl
    · exact congrArg some (setThenNorm cell cls.sect)
  · rw [hfm, cellAt_mapCells]
    simp only [cellAt_setValueCell]
    norm_num
    rcases cellAt t 2 1 with _ | cell
    · rfl
    · exact congrArg some (setThenNorm cell txt)
  · rw [hfm, cellAt_mapCells]
    simp only [cellAt_setValueCell]
    norm_num
    rcases cellAt t 2 3 with _ | cell
    · rfl
    · exact congrArg some (setThenNorm cell cls.date_text)
  · intro r c hc
    rw [hfm, cellAt_mapCells]
    simp only [cellAt_setValueCell]
    rcases hc with rfl | rfl <;> norm_num
  · intro cell
    unfold _set_cell_paras_no_space _set_p_no_space
    constructor
    · rw [List.map_map]
      rfl
    · rw [List.map_map]
      rfl

/-- Closed witness for C4 amended: the label clause at row 0 column 0 of
the styled fixture table. -/
theorem C4_meta_population_witness :
    cellAt (fillMetaTable metaTableStyled emptyCls "T") 0 0 =
      (cellAt metaTableStyled 0 0).map _set_cell_paras_no_space :=
  (C4_meta_population metaTableStyled emptyCls "T").2.2.2.2.2.2.1 0 0 (Or.inl rfl)

/-! ## Locator-loop characterization -/

theorem findIdx?_ge {α : Type} (p : α → Bool) (l : List α) :
    ∀ (i j : Nat), List.findIdx? p l i = some j → i ≤ j := by
  induction l with
  | nil =>
    intro i j h
    simp [List.findIdx?] at h
  | cons t ts ih =>
    intro i j h
    rw [List.findIdx?_cons] at h
    by_cases hp : p t = true
    · rw [if_pos hp] at h
      injection h with h2
      omega
    · rw [if_neg hp] at h
      have h3 := ih (i + 1) j h
      omega

theorem resultsSpecGo_far (ts : List Table) :
    ∀ (a i : Nat), a < i →
      resultsSpecGo (some a) i ts = List.findIdx? _looks_like_results_table ts i := by
  induction ts with
  | nil => intro a i h; rfl
  | cons t ts ih =>
    intro a i h
    show (if _looks_like_results_table t && !(decide ((some a : Option Nat) = some i))
        then some i else resultsSpecGo (some a) (i + 1) ts) = _
    have hne : (decide ((some a : Option Nat) = some i)) = false := by
      rw [decide_eq_false]
      intro he
      injection he with he2
      omega
    rw [List.findIdx?_cons, hne, Bool.not_false, Bool.and_true]
    by_cases hr : _looks_like_results_table t = true
    · rw [if_pos hr, if_pos hr]
    · rw [if_neg hr, if_neg hr, ih a (i + 1) (by omega)]

theorem locateLoop_meta_found (ts : List Table) :
    ∀ (i a : Nat) (r : Option Nat),
      locateLoop i ts (some a) r =
        (some a, match r with
          | some b => some b
          | none => List.findIdx? _looks_like_results_table ts i) := by
  induction ts with
  | nil => intro i a r; cases r <;> rfl
  | cons t ts ih =>
    intro i a r
    cases r with
    | some b => simp [locateLoop]
    | none =>
      by_cases hres : _looks_like_results_table t = true
      · simp [locateLoop, hres, List.findIdx?_cons]
      · simp [locateLoop, hres, List.findIdx?_cons, ih]

theorem locateLoop_results_found (ts : List Table) :
    ∀ (i b : Nat),
      locateLoop i ts none (some b) =
        (List.findIdx? _looks_like_meta_table ts i, some b) := by
  induction ts with
  | nil => intro i b; rfl
  | cons t ts ih =>
    intro i b
    by_cases hmeta : _looks_like_meta_table t = true
    · simp [locateLoop, hmeta, List.findIdx?_cons]
    · simp [locateLoop, hmeta, List.findIdx?_cons, ih]

theorem locateLoop_none_none (ts : List Table) :
    ∀ (i : Nat),
      locateLoop i ts none none =
        (List.findIdx? _looks_like_meta_table ts i,
          resultsSpecGo (List.findIdx? _looks_like_meta_table ts i) i ts) := by
  induction ts with
  | nil => intro i; rfl
  | cons t ts ih =>
    intro i
    by_cases hmeta : _looks_like_meta_table t = true
    · have h1 : locateLoop i (t :: ts) none none = locateLoop (i + 1) ts (some i) none := by
        simp [locateLoop, hmeta]
      rw [h1, locateLoop_meta_found, List.findIdx?_cons, if_pos hmeta]
      show _ = (some i,
        if _looks_like_results_table t && !(decide ((some i : Option Nat) = some i))
        then some i else resultsSpecGo (some i) (i + 1) ts)
      rw [decide_eq_true rfl, Bool.not_true, Bool.and_false, if_neg Bool.false_ne_true,
        resultsSpecGo_far ts i (i + 1) (by omega)]
    · rw [List.findIdx?_cons, if_neg hmeta]
      by_cases hres : _looks_like_results_table t = true
      · have h1 : locateLoop i (t :: ts) none none = locateLoop (i + 1) ts none (some i) := by
          simp [locateLoop, hmeta, hres]
        rw [h1, locateLoop_results_found]
        show _ = (List.findIdx? _looks_like_meta_table ts (i + 1),
          if _looks_like_results_table t &&
            !(decide (List.findIdx? _looks_like_meta_table ts (i + 1) = some i))
          then some i else resultsSpecGo (List.findIdx? _looks_like_meta_table ts (i + 1)) (i + 1) ts)
        have hne : (decide (List.findIdx? _looks_like_meta_table ts (i + 1) = some i)) =
            false := by
          rw [decide_eq_false]
          intro he
          have h3 := findIdx?_ge _looks_like_meta_table ts (i + 1) i he
          omega
        rw [hres, hne, Bool.not_false, Bool.and_true, if_pos rfl]
      · have h1 : locateLoop i (t :: ts) none none = locateLoop (i + 1) ts none none := by
          simp [locateLoop, hmeta, hres]
        rw [h1, ih]
        show _ = (List.findIdx? _looks_like_meta_table ts (i + 1),
          if _looks_like_results_table t &&
            !(decide (List.findIdx? _looks_like_meta_table ts (i + 1) = some i))
          then some i else resultsSpecGo (List.findIdx? _looks_like_meta_table ts (i + 1)) (i + 1) ts)
        have hres2 : _looks_like_results_table t = false := by
          simp only [Bool.not_eq_true] at hres
          exact hres
        rw [hres2, Bool.false_and, if_neg Bool.false_ne_true]

/-- C5 fails on the code: because of the `elif`, a table claimed as the
metadata table is never tested against the results predicate.  In the
two-table document below, table 0 satisfies BOTH predicates, yet the
results slot goes to table 1 instead of the first results-satisfying
table (table 0). -/
theorem C5_counterexample :
    _looks_like_results_table dualTable = true ∧
    _looks_like_meta_table dualTable = true ∧
    locateTables [dualTable, resultsOnlyTable] = (some 0, some 1) := by
  refine ⟨?_, ?_, ?_⟩
  · decide
  · decide
  · decide

/-- C5 amended: the locator scans the tables in document order, the
metadata slot gets the first table satisfying the metadata predicate, and
the results slot gets the first table satisfying the results predicate
among the tables OTHER than the one chosen for the metadata slot (the
`elif` skips that table); the early break once both are found does not
change the outcome. -/
theorem C5_locator (doc : List Table) :
    locateTables doc = (doc.findIdx? _looks_like_meta_table, resultsSpec doc) := by
  unfold locateTables resultsSpec
  exact locateLoop_none_none doc 0

end PhilIRI
